import Mathlib

/-!
Verification of the STL mesh-repair pipeline in
src/utils/stl-repair-pymeshlab.py.

The script is a thin orchestration layer over the external pymeshlab
engine: it validates that the input file exists, loads the mesh, applies
eight repair filters in a fixed order, saves the result, and returns a
Python dict describing the run.  The CLI entry point prints that dict as
JSON (indent 2) to stdout and exits 0 on success, 1 on failure.

The embedding models the external world (filesystem and geometry engine)
as oracles: each fallible external call returns an Except value, where
an error stands for a raised Python exception.  A run produces, besides
the returned dict, a trace of observable events (stderr lines and engine
calls with their arguments), so that claims about call order, fixed
parameters and verbose-only output are statable.
-/

/-- A raised Python exception: its class name and its str() rendering. -/
structure Exc where
  typeName : String
  msg : String
deriving DecidableEq, Repr

/-- Vertex/face counts read from the current mesh
(vertex_number() / face_number()). -/
structure MeshStats where
  vertices : Nat
  faces : Nat
deriving DecidableEq, Repr

/-- One call into the pymeshlab engine, with the arguments the script
passes.  Ratios (vertdispratio=0.0, threshold_perc=0.01) are exact
decimal literals in the source, modelled as rationals. -/
inductive EngineCall where
  | load_new_mesh (path : String)
  | remove_duplicate_faces
  | remove_duplicate_vertices
  | remove_unreferenced_vertices
  | repair_non_manifold_edges (method : Nat)
  | repair_non_manifold_vertices (vdisp : Rat)
  | close_holes (maxholesize : Nat)
  | re_orient_faces_coherently
  | snap_mismatched_borders (thresholdPerc : Rat)
  | save_current_mesh (path : String) (binary : Bool) (saveVertexNormal : Bool)
deriving DecidableEq, Repr

/-- An observable event of one run: a diagnostic line printed to stderr,
or a call into the geometry engine. -/
inductive Event where
  | stderrLine (s : String)
  | engineCall (c : EngineCall)
deriving DecidableEq, Repr

/-- Oracle for the pymeshlab engine.  M0 is the opaque mesh state; each
filter either returns the updated state or raises. -/
structure Engine (M0 : Type) where
  load_new_mesh : String → Except Exc M0
  vertex_number : M0 → Nat
  face_number : M0 → Nat
  remove_duplicate_faces : M0 → Except Exc M0
  remove_duplicate_vertices : M0 → Except Exc M0
  remove_unreferenced_vertices : M0 → Except Exc M0
  repair_non_manifold_edges : Nat → M0 → Except Exc M0
  repair_non_manifold_vertices : Rat → M0 → Except Exc M0
  close_holes : Nat → M0 → Except Exc M0
  re_orient_faces_coherently : M0 → Except Exc M0
  snap_mismatched_borders : Rat → M0 → Except Exc M0
  save_current_mesh : String → Bool → Bool → M0 → Except Exc Unit

/-- Oracle for the filesystem: os.path.exists (never raises) and
os.path.getsize (may raise OSError). -/
structure FS where
  pathExists : String → Bool
  getsize : String → Except Exc Nat

/-- The fields of the success dict built at the end of repair_stl. -/
structure SuccessInfo where
  outputPath : String
  originalSize : Nat
  repairedSize : Nat
  sizeDifference : Int
  initialStats : MeshStats
  finalStats : MeshStats
  repairSteps : List String
  verticesChanged : Int
  facesChanged : Int
deriving DecidableEq, Repr

/-- The three dict shapes repair_stl can return: the missing-input
failure dict, the success dict, and the except-clause failure dict. -/
inductive RepairReturn where
  | missingInput (error : String)
  | success (info : SuccessInfo)
  | caught (error : String) (errorType : String)
deriving DecidableEq, Repr

/-- JSON values, used to render each returned dict exactly as the
Python dict literal that builds it (keys in insertion order). -/
inductive JValue where
  | jbool (b : Bool)
  | jint (n : Int)
  | jstr (s : String)
  | jarr (xs : List JValue)
  | jobj (fields : List (String × JValue))
deriving Repr

/-- First-match lookup in a JSON object field list (Python dict access). -/
def jlookup (k : String) : List (String × JValue) → Option JValue
  | [] => none
  | (k2, v) :: rest => if k2 = k then some v else jlookup k rest

/-- Dict subscript on a JSON value: defined only on objects. -/
def jget (v : JValue) (k : String) : Option JValue :=
  match v with
  | .jobj fields => jlookup k fields
  | _ => none

/-- The keys of a JSON object, in order. -/
def keysOf (v : JValue) : List String :=
  match v with
  | .jobj fields => fields.map Prod.fst
  | _ => []

/-- Whether an optional JSON value is present and a string. -/
def isStr : Option JValue → Bool
  | some (.jstr _) => true
  | _ => false

/-- Python truthiness of a JSON value (bool(x)). -/
def pythonTruthy : JValue → Bool
  | .jbool b => b
  | .jint n => n != 0
  | .jstr s => s ≠ ""
  | .jarr xs => !xs.isEmpty
  | .jobj fields => !fields.isEmpty

/-- The initial/final stats sub-dicts. -/
def MeshStats.toJ (s : MeshStats) : JValue :=
  .jobj [("vertices", .jint s.vertices), ("faces", .jint s.faces)]

/-- Each return dict of repair_stl as the JSON object the script builds,
fields in the order of the Python dict literals. -/
def RepairReturn.toJ : RepairReturn → JValue
  | .missingInput err =>
      .jobj [("success", .jbool false), ("error", .jstr err)]
  | .success info =>
      .jobj [("success", .jbool true),
             ("outputPath", .jstr info.outputPath),
             ("originalSize", .jint info.originalSize),
             ("repairedSize", .jint info.repairedSize),
             ("sizeDifference", .jint info.sizeDifference),
             ("initialStats", info.initialStats.toJ),
             ("finalStats", info.finalStats.toJ),
             ("repairSteps", .jarr (info.repairSteps.map .jstr)),
             ("verticesChanged", .jint info.verticesChanged),
             ("facesChanged", .jint info.facesChanged)]
  | .caught err ty =>
      .jobj [("success", .jbool false), ("error", .jstr err),
             ("errorType", .jstr ty)]

/-- True exactly on the success variant (the dict with success: True). -/
def isSuccess : RepairReturn → Bool
  | .success _ => true
  | _ => false

/-- Events produced by one `if verbose: print(..., file=sys.stderr)`. -/
def vlog (verbose : Bool) (s : String) : List Event :=
  if verbose then [Event.stderrLine s] else []

/-- The body of the try block of repair_stl, translated line by line.
An Except.error result stands for an exception escaping the try block;
an Except.ok result is a dict returned normally (which includes the
missing-input failure dict).  The second component is the event trace
accumulated up to the return or the raise. -/
def repairBody (M0 : Type) (eng : Engine M0) (fs : FS)
    (input_path output_path : String) (verbose : Bool) :
    Except Exc RepairReturn × List Event :=
  if fs.pathExists input_path = false then
    (.ok (.missingInput ("Input file not found: " ++ input_path)), [])
  else
    match fs.getsize input_path with
    | .error e => (.error e, [])
    | .ok original_size =>
      let t1 := vlog verbose ("[PYMESHLAB] Loading mesh from: " ++ input_path)
      let t2 := t1 ++ [Event.engineCall (.load_new_mesh input_path)]
      match eng.load_new_mesh input_path with
      | .error e => (.error e, t2)
      | .ok ms0 =>
        let initial_stats : MeshStats :=
          ⟨eng.vertex_number ms0, eng.face_number ms0⟩
        let t3 := t2 ++ vlog verbose
          ("[PYMESHLAB] Initial mesh: " ++ toString initial_stats.vertices
            ++ " vertices, " ++ toString initial_stats.faces ++ " faces")
        let t4 := t3 ++ vlog verbose
          "[PYMESHLAB] Step 1: Removing duplicate faces..."
          ++ [Event.engineCall .remove_duplicate_faces]
        match eng.remove_duplicate_faces ms0 with
        | .error e => (.error e, t4)
        | .ok ms1 =>
          let t5 := t4 ++ vlog verbose
            "[PYMESHLAB] Step 2: Removing duplicate vertices..."
            ++ [Event.engineCall .remove_duplicate_vertices]
          match eng.remove_duplicate_vertices ms1 with
          | .error e => (.error e, t5)
          | .ok ms2 =>
            let t6 := t5 ++ vlog verbose
              "[PYMESHLAB] Step 3: Removing unreferenced vertices..."
              ++ [Event.engineCall .remove_unreferenced_vertices]
            match eng.remove_unreferenced_vertices ms2 with
            | .error e => (.error e, t6)
            | .ok ms3 =>
              let t7 := t6 ++ vlog verbose
                "[PYMESHLAB] Step 4: Repairing non-manifold edges..."
                ++ [Event.engineCall (.repair_non_manifold_edges 0)]
              match eng.repair_non_manifold_edges 0 ms3 with
              | .error e => (.error e, t7)
              | .ok ms4 =>
                let t8 := t7 ++ vlog verbose
                  "[PYMESHLAB] Step 5: Repairing non-manifold vertices..."
                  ++ [Event.engineCall (.repair_non_manifold_vertices 0)]
                match eng.repair_non_manifold_vertices 0 ms4 with
                | .error e => (.error e, t8)
                | .ok ms5 =>
                  let t9 := t8 ++ vlog verbose
                    "[PYMESHLAB] Step 6: Closing holes..."
                    ++ [Event.engineCall (.close_holes 30)]
                  match eng.close_holes 30 ms5 with
                  | .error e => (.error e, t9)
                  | .ok ms6 =>
                    let t10 := t9 ++ vlog verbose
                      "[PYMESHLAB] Step 7: Re-orienting faces..."
                      ++ [Event.engineCall .re_orient_faces_coherently]
                    match eng.re_orient_faces_coherently ms6 with
                    | .error e => (.error e, t10)
                    | .ok ms7 =>
                      let t11 := t10 ++ vlog verbose
                        "[PYMESHLAB] Step 8: Snapping nearby vertices..."
                        ++ [Event.engineCall (.snap_mismatched_borders (1 / 100))]
                      match eng.snap_mismatched_borders (1 / 100) ms7 with
                      | .error e => (.error e, t11)
                      | .ok ms8 =>
                        let final_stats : MeshStats :=
                          ⟨eng.vertex_number ms8, eng.face_number ms8⟩
                        let t12 := t11 ++ vlog verbose
                          ("[PYMESHLAB] Final mesh: "
                            ++ toString final_stats.vertices ++ " vertices, "
                            ++ toString final_stats.faces ++ " faces")
                        let t13 := t12 ++ vlog verbose
                          ("[PYMESHLAB] Saving repaired mesh to: " ++ output_path)
                          ++ [Event.engineCall
                                (.save_current_mesh output_path true false)]
                        match eng.save_current_mesh output_path true false ms8 with
                        | .error e => (.error e, t13)
                        | .ok _ =>
                          match fs.getsize output_path with
                          | .error e => (.error e, t13)
                          | .ok repaired_size =>
                            (.ok (.success
                              { outputPath := output_path
                                originalSize := original_size
                                repairedSize := repaired_size
                                sizeDifference :=
                                  (repaired_size : Int) - (original_size : Int)
                                initialStats := initial_stats
                                finalStats := final_stats
                                repairSteps :=
                                  ["remove_duplicate_faces",
                                   "remove_duplicate_vertices",
                                   "remove_unreferenced_vertices",
                                   "repair_non_manifold_edges",
                                   "repair_non_manifold_vertices",
                                   "close_holes",
                                   "reorient_faces",
                                   "snap_borders"]
                                verticesChanged :=
                                  (final_stats.vertices : Int)
                                    - (initial_stats.vertices : Int)
                                facesChanged :=
                                  (final_stats.faces : Int)
                                    - (initial_stats.faces : Int) }), t13)

/-- repair_stl: the try body wrapped in the except-clause, which turns
any escaped exception e into the dict with error str(e) and errorType
type(e).__name__. -/
def repair_stl (M0 : Type) (eng : Engine M0) (fs : FS)
    (input_path output_path : String) (verbose : Bool) :
    RepairReturn × List Event :=
  match repairBody M0 eng fs input_path output_path verbose with
  | (.ok r, tr) => (r, tr)
  | (.error e, tr) => (.caught e.msg e.typeName, tr)

/-- The engine-call subsequence of a trace. -/
def engineCallsOf (tr : List Event) : List EngineCall :=
  tr.filterMap fun e =>
    match e with
    | .engineCall c => some c
    | _ => none

/-- The stderr lines of a trace. -/
def stderrOf (tr : List Event) : List String :=
  tr.filterMap fun e =>
    match e with
    | .stderrLine s => some s
    | _ => none

/-- The complete engine-call sequence of a run that reaches the end of
the try block: load, the eight repair filters in source order with
their fixed arguments, then the binary save without vertex normals. -/
def fullCallList (input_path output_path : String) : List EngineCall :=
  [.load_new_mesh input_path,
   .remove_duplicate_faces,
   .remove_duplicate_vertices,
   .remove_unreferenced_vertices,
   .repair_non_manifold_edges 0,
   .repair_non_manifold_vertices 0,
   .close_holes 30,
   .re_orient_faces_coherently,
   .snap_mismatched_borders (1 / 100),
   .save_current_mesh output_path true false]

/-- The repair_steps list the script accumulates, in append order. -/
def fixedStepNames : List String :=
  ["remove_duplicate_faces", "remove_duplicate_vertices",
   "remove_unreferenced_vertices", "repair_non_manifold_edges",
   "repair_non_manifold_vertices", "close_holes",
   "reorient_faces", "snap_borders"]

/-- What the CLI entry point produces: the documents printed to stdout
(each with its json.dumps indent), the exit code passed to sys.exit
(none would model a KeyError on result of "success"), and the stderr
lines. -/
structure MainOutcome where
  stdout : List (JValue × Nat)
  exitCode : Option Nat
  stderr : List String

/-- The __main__ block after argument parsing: run repair_stl, print
json.dumps(result, indent=2) to stdout, and exit with
0 if result of "success" is truthy else 1. -/
def pyMain (M0 : Type) (eng : Engine M0) (fs : FS)
    (input output : String) (verbose : Bool) : MainOutcome :=
  let run := repair_stl M0 eng fs input output verbose
  let doc := run.fst.toJ
  { stdout := [(doc, 2)]
    exitCode :=
      match jget doc "success" with
      | some v => some (if pythonTruthy v then 0 else 1)
      | none => none
    stderr := stderrOf run.snd }

/-! ## Concrete oracle instances, used to exercise the pipeline -/

/-- An engine over a trivial mesh state in which every call succeeds;
the mesh reports 8 vertices and 12 faces throughout. -/
def okEngine : Engine Unit where
  load_new_mesh := fun _ => .ok ()
  vertex_number := fun _ => 8
  face_number := fun _ => 12
  remove_duplicate_faces := fun m => .ok m
  remove_duplicate_vertices := fun m => .ok m
  remove_unreferenced_vertices := fun m => .ok m
  repair_non_manifold_edges := fun _ m => .ok m
  repair_non_manifold_vertices := fun _ m => .ok m
  close_holes := fun _ m => .ok m
  re_orient_faces_coherently := fun m => .ok m
  snap_mismatched_borders := fun _ m => .ok m
  save_current_mesh := fun _ _ _ _ => .ok ()

/-- A filesystem in which every path exists with size 684 bytes. -/
def okFS : FS where
  pathExists := fun _ => true
  getsize := fun _ => .ok 684

/-- A filesystem with no files at all. -/
def missFS : FS where
  pathExists := fun _ => false
  getsize := fun _ => .error ⟨"OSError", "stat failed"⟩

/-- An out-of-memory exception raised by the engine. -/
def oomExc : Exc := ⟨"MemoryError", "out of memory"⟩

/-- Like okEngine, except that close_holes raises MemoryError. -/
def failEngine : Engine Unit :=
  { okEngine with close_holes := fun _ _ => .error oomExc }

/-- The event trace of a failEngine run with verbose off: the calls up
to and including the failing close_holes. -/
def failTrace : List Event :=
  [Event.engineCall (.load_new_mesh "in.stl"),
   Event.engineCall .remove_duplicate_faces,
   Event.engineCall .remove_duplicate_vertices,
   Event.engineCall .remove_unreferenced_vertices,
   Event.engineCall (.repair_non_manifold_edges 0),
   Event.engineCall (.repair_non_manifold_vertices 0),
   Event.engineCall (.close_holes 30)]

/-! ## Helper lemmas -/

lemma repair_stl_snd (M0 : Type) (eng : Engine M0) (fs : FS)
    (i o : String) (v : Bool) :
    (repair_stl M0 eng fs i o v).snd = (repairBody M0 eng fs i o v).snd := by
  unfold repair_stl
  rcases h : repairBody M0 eng fs i o v with ⟨r | e, tr⟩ <;> simp

lemma repair_stl_of_ok (M0 : Type) (eng : Engine M0) (fs : FS)
    (i o : String) (v : Bool) (r : RepairReturn) (tr : List Event)
    (h : repairBody M0 eng fs i o v = (.ok r, tr)) :
    repair_stl M0 eng fs i o v = (r, tr) := by
  unfold repair_stl
  rw [h]

lemma repair_stl_of_err (M0 : Type) (eng : Engine M0) (fs : FS)
    (i o : String) (v : Bool) (e : Exc) (tr : List Event)
    (h : repairBody M0 eng fs i o v = (.error e, tr)) :
    repair_stl M0 eng fs i o v = (.caught e.msg e.typeName, tr) := by
  unfold repair_stl
  rw [h]

lemma repair_stl_success_body (M0 : Type) (eng : Engine M0) (fs : FS)
    (i o : String) (v : Bool) (info : SuccessInfo)
    (h : (repair_stl M0 eng fs i o v).fst = .success info) :
    (repairBody M0 eng fs i o v).fst = .ok (.success info) := by
  unfold repair_stl at h
  rcases hb : repairBody M0 eng fs i o v with ⟨r | e, tr⟩ <;> rw [hb] at h <;>
    simp at h
  simp [h]

lemma engineCall_mem_vlog (c : EngineCall) (v : Bool) (s : String) :
    Event.engineCall c ∈ vlog v s ↔ False := by
  cases v <;> simp [vlog]

lemma engineCallsOf_append (a b : List Event) :
    engineCallsOf (a ++ b) = engineCallsOf a ++ engineCallsOf b := by
  simp [engineCallsOf]

lemma engineCallsOf_vlog (v : Bool) (s : String) :
    engineCallsOf (vlog v s) = [] := by
  cases v <;> simp [vlog, engineCallsOf]

lemma engineCallsOf_cons_call (c : EngineCall) (tr : List Event) :
    engineCallsOf (Event.engineCall c :: tr) = c :: engineCallsOf tr := by
  simp [engineCallsOf]

lemma engineCallsOf_nil : engineCallsOf [] = [] := rfl

lemma stderrOf_append (a b : List Event) :
    stderrOf (a ++ b) = stderrOf a ++ stderrOf b := by
  simp [stderrOf]

lemma stderrOf_vlog_false (s : String) : stderrOf (vlog false s) = [] := rfl

lemma stderrOf_call (c : EngineCall) (tr : List Event) :
    stderrOf (Event.engineCall c :: tr) = stderrOf tr := by
  simp [stderrOf]

/-- Every engine call that appears in a run's trace is one of the calls
of the complete call sequence. -/
lemma trace_calls_subset (M0 : Type) (eng : Engine M0) (fs : FS)
    (i o : String) (v : Bool) (c : EngineCall) :
    Event.engineCall c ∈ (repairBody M0 eng fs i o v).snd →
      c ∈ fullCallList i o := by
  unfold repairBody
  repeat' split
  all_goals simp_all [engineCall_mem_vlog, fullCallList]
  all_goals tauto

/-- A run that finds the input missing returns the missing-input dict
at once, with an empty event trace. -/
lemma run_missing_input (M0 : Type) (eng : Engine M0) (fs : FS)
    (i o : String) (v : Bool) (h : fs.pathExists i = false) :
    repair_stl M0 eng fs i o v =
      (.missingInput ("Input file not found: " ++ i), []) := by
  unfold repair_stl repairBody
  simp [h]

/-- The engine calls of any run form a prefix of the complete call
sequence: a failure at some step cuts the sequence there, and no later
call is made. -/
lemma body_calls_take (M0 : Type) (eng : Engine M0) (fs : FS)
    (i o : String) (v : Bool) :
    engineCallsOf (repairBody M0 eng fs i o v).snd <+: fullCallList i o := by
  unfold repairBody
  repeat' split
  all_goals simp only [engineCallsOf_append, engineCallsOf_vlog,
    engineCallsOf_cons_call, engineCallsOf_nil, fullCallList,
    List.nil_append, List.append_nil, List.cons_append]
  all_goals exact ⟨_, rfl⟩

/-- Characterization of a run that returns the success dict: the output
path, the recorded step list, the full ordered engine-call trace, and
the three difference fields. -/
lemma success_char (M0 : Type) (eng : Engine M0) (fs : FS)
    (i o : String) (v : Bool) (info : SuccessInfo)
    (h : (repairBody M0 eng fs i o v).fst = .ok (.success info)) :
    info.outputPath = o ∧
    info.repairSteps = fixedStepNames ∧
    engineCallsOf (repairBody M0 eng fs i o v).snd = fullCallList i o ∧
    info.sizeDifference =
      (info.repairedSize : Int) - (info.originalSize : Int) ∧
    info.verticesChanged =
      (info.finalStats.vertices : Int) - (info.initialStats.vertices : Int) ∧
    info.facesChanged =
      (info.finalStats.faces : Int) - (info.initialStats.faces : Int) := by
  unfold repairBody at h ⊢
  repeat' split
  all_goals simp_all [engineCallsOf_append, engineCallsOf_vlog,
    engineCallsOf_cons_call, engineCallsOf_nil, fullCallList,
    fixedStepNames]
  all_goals subst h
  all_goals simp [engineCallsOf_append, engineCallsOf_vlog,
    engineCallsOf_cons_call, engineCallsOf_nil, fullCallList, fixedStepNames]

/-- The returned dict of a run does not depend on the verbose flag. -/
lemma fst_verbose_indep (M0 : Type) (eng : Engine M0) (fs : FS)
    (i o : String) (v1 v2 : Bool) :
    (repairBody M0 eng fs i o v1).fst = (repairBody M0 eng fs i o v2).fst := by
  unfold repairBody
  repeat' split
  all_goals simp_all

/-- The engine calls made by a run do not depend on the verbose flag. -/
lemma calls_verbose_indep (M0 : Type) (eng : Engine M0) (fs : FS)
    (i o : String) (v1 v2 : Bool) :
    engineCallsOf (repairBody M0 eng fs i o v1).snd =
      engineCallsOf (repairBody M0 eng fs i o v2).snd := by
  unfold repairBody
  repeat' split
  all_goals simp_all [engineCallsOf_append, engineCallsOf_vlog,
    engineCallsOf_cons_call, engineCallsOf_nil]

/-- With verbose off, a run prints nothing to stderr. -/
lemma stderr_quiet (M0 : Type) (eng : Engine M0) (fs : FS) (i o : String) :
    stderrOf (repairBody M0 eng fs i o false).snd = [] := by
  unfold repairBody
  repeat' split
  all_goals simp_all [stderrOf_append, stderrOf_vlog_false, stderrOf_call,
    stderrOf, vlog]

lemma mem_of_mem_engineCallsOf (c : EngineCall) (tr : List Event)
    (h : c ∈ engineCallsOf tr) : Event.engineCall c ∈ tr := by
  unfold engineCallsOf at h
  rcases List.mem_filterMap.mp h with ⟨e, he, hc⟩
  cases e with
  | stderrLine s => simp at hc
  | engineCall c2 =>
    simp at hc
    rw [hc] at he
    exact he

/-! ## Claims -/

/-- Claim C1: when inputPath does not reference an existing file,
repair_stl fails immediately with the missing-input Failure dict (the
spec's InputNotFound kind), before any interaction with the geometry
engine (the event trace is empty, so in particular no save call that
could create the output file is made). -/
theorem claim_C1 (M0 : Type) (eng : Engine M0) (fs : FS)
    (i o : String) (v : Bool) (h : fs.pathExists i = false) :
    repair_stl M0 eng fs i o v =
      (.missingInput ("Input file not found: " ++ i), []) ∧
    ∀ c, Event.engineCall c ∉ (repair_stl M0 eng fs i o v).snd := by
  have hr := run_missing_input M0 eng fs i o v h
  refine ⟨hr, ?_⟩
  intro c
  rw [hr]
  simp

/-- Witness for C1 at the concrete input of the spec's test case. -/
theorem claim_C1_witness :
    missFS.pathExists "/nonexistent.stl" = false ∧
    repair_stl Unit okEngine missFS "/nonexistent.stl" "out.stl" false =
      (.missingInput ("Input file not found: " ++ "/nonexistent.stl"), []) :=
  ⟨rfl,
   (claim_C1 Unit okEngine missFS "/nonexistent.stl" "out.stl" false rfl).1⟩

/-- Claim C2: whenever a run invokes close_holes, the max hole size is
30 edges; whenever it invokes repair_non_manifold_vertices, the
displacement ratio is 0; whenever it invokes snap_mismatched_borders,
the border-snap threshold is 1 percent — for every oracle and input. -/
theorem claim_C2 (M0 : Type) (eng : Engine M0) (fs : FS)
    (i o : String) (v : Bool) :
    (∀ n, Event.engineCall (EngineCall.close_holes n) ∈
        (repair_stl M0 eng fs i o v).snd → n = 30) ∧
    (∀ q, Event.engineCall (EngineCall.repair_non_manifold_vertices q) ∈
        (repair_stl M0 eng fs i o v).snd → q = 0) ∧
    (∀ q, Event.engineCall (EngineCall.snap_mismatched_borders q) ∈
        (repair_stl M0 eng fs i o v).snd → q = 1 / 100) := by
  rw [repair_stl_snd]
  refine ⟨?_, ?_, ?_⟩ <;> intro x hx <;>
    have hs := trace_calls_subset M0 eng fs i o v _ hx <;>
    simp [fullCallList] at hs <;> simp [hs]

/-- Witness for C2: a complete run does call close_holes, with 30. -/
theorem claim_C2_witness :
    Event.engineCall (EngineCall.close_holes 30) ∈
      (repair_stl Unit okEngine okFS "in.stl" "out.stl" false).snd ∧
    (30 : Nat) = 30 :=
  ⟨by decide,
   (claim_C2 Unit okEngine okFS "in.stl" "out.stl" false).1 30 (by decide)⟩

/-- Claim C3: a run that completes (returns the success dict) has
invoked the engine in the exact fixed order — load, the eight repair
steps, save — and its repairSteps field is exactly the fixed
eight-element ordered list of step names. -/
theorem claim_C3 (M0 : Type) (eng : Engine M0) (fs : FS)
    (i o : String) (v : Bool) (info : SuccessInfo)
    (h : (repair_stl M0 eng fs i o v).fst = .success info) :
    info.repairSteps = fixedStepNames ∧
    engineCallsOf (repair_stl M0 eng fs i o v).snd = fullCallList i o := by
  have hc := success_char M0 eng fs i o v info
    (repair_stl_success_body M0 eng fs i o v info h)
  rw [repair_stl_snd]
  exact ⟨hc.2.1, hc.2.2.1⟩

/-- The success dict of a complete okEngine/okFS run. -/
def okInfo : SuccessInfo :=
  { outputPath := "out.stl"
    originalSize := 684
    repairedSize := 684
    sizeDifference := 0
    initialStats := ⟨8, 12⟩
    finalStats := ⟨8, 12⟩
    repairSteps := fixedStepNames
    verticesChanged := 0
    facesChanged := 0 }

/-- Witness for C3 on a concrete complete run. -/
theorem claim_C3_witness :
    (repair_stl Unit okEngine okFS "in.stl" "out.stl" false).fst =
      .success okInfo ∧
    okInfo.repairSteps = fixedStepNames :=
  ⟨by decide,
   (claim_C3 Unit okEngine okFS "in.stl" "out.stl" false okInfo
     (by decide)).1⟩

/-- Claim C4: in every success dict, sizeDifference, verticesChanged
and facesChanged are the exact signed differences of the corresponding
recorded fields. -/
theorem claim_C4 (M0 : Type) (eng : Engine M0) (fs : FS)
    (i o : String) (v : Bool) (info : SuccessInfo)
    (h : (repair_stl M0 eng fs i o v).fst = .success info) :
    info.sizeDifference =
      (info.repairedSize : Int) - (info.originalSize : Int) ∧
    info.verticesChanged =
      (info.finalStats.vertices : Int) - (info.initialStats.vertices : Int) ∧
    info.facesChanged =
      (info.finalStats.faces : Int) - (info.initialStats.faces : Int) :=
  (success_char M0 eng fs i o v info
    (repair_stl_success_body M0 eng fs i o v info h)).2.2.2

/-- Witness for C4 on a concrete complete run. -/
theorem claim_C4_witness :
    (repair_stl Unit okEngine okFS "in.stl" "out.stl" false).fst =
      .success okInfo ∧
    okInfo.sizeDifference =
      (okInfo.repairedSize : Int) - (okInfo.originalSize : Int) :=
  ⟨by decide,
   (claim_C4 Unit okEngine okFS "in.stl" "out.stl" false okInfo
     (by decide)).1⟩

/-- Claim C5: an exception escaping any step of the try body is caught
at the pipeline boundary and turned into the Failure dict carrying the
exception's message (and class name); and the engine calls of any run
form a prefix of the complete call sequence, so a failure aborts every
remaining step. -/
theorem claim_C5 (M0 : Type) (eng : Engine M0) (fs : FS)
    (i o : String) (v : Bool) :
    (∀ e tr, repairBody M0 eng fs i o v = (.error e, tr) →
      repair_stl M0 eng fs i o v = (.caught e.msg e.typeName, tr)) ∧
    engineCallsOf (repair_stl M0 eng fs i o v).snd <+: fullCallList i o := by
  refine ⟨fun e tr h => repair_stl_of_err M0 eng fs i o v e tr h, ?_⟩
  rw [repair_stl_snd]
  exact body_calls_take M0 eng fs i o v

/-- Witness for C5: a run whose close_holes step raises MemoryError is
converted to the caught-failure dict, and stops after close_holes. -/
theorem claim_C5_witness :
    repairBody Unit failEngine okFS "in.stl" "out.stl" false =
      (.error oomExc, failTrace) ∧
    repair_stl Unit failEngine okFS "in.stl" "out.stl" false =
      (.caught oomExc.msg oomExc.typeName, failTrace) :=
  ⟨rfl,
   (claim_C5 Unit failEngine okFS "in.stl" "out.stl" false).1 oomExc failTrace
     rfl⟩

/-- The returned dict of repair_stl does not depend on verbose. -/
lemma repair_fst_verbose (M0 : Type) (eng : Engine M0) (fs : FS)
    (i o : String) (v1 v2 : Bool) :
    (repair_stl M0 eng fs i o v1).fst = (repair_stl M0 eng fs i o v2).fst := by
  unfold repair_stl
  have h := fst_verbose_indep M0 eng fs i o v1 v2
  rcases h1 : repairBody M0 eng fs i o v1 with ⟨r1 | e1, t1⟩ <;>
    rcases h2 : repairBody M0 eng fs i o v2 with ⟨r2 | e2, t2⟩ <;>
    rw [h1, h2] at h <;> simp_all

/-- Claim C6: the CLI prints exactly one JSON document — the result
dict, with indent 2 — to stdout, and exits 0 when the result is the
success dict, 1 when it is a failure dict. -/
theorem claim_C6 (M0 : Type) (eng : Engine M0) (fs : FS)
    (i o : String) (v : Bool) :
    (pyMain M0 eng fs i o v).stdout =
      [((repair_stl M0 eng fs i o v).fst.toJ, 2)] ∧
    (pyMain M0 eng fs i o v).exitCode =
      some (if isSuccess (repair_stl M0 eng fs i o v).fst then 0 else 1) := by
  simp only [pyMain]
  refine ⟨trivial, ?_⟩
  cases hr : (repair_stl M0 eng fs i o v).fst <;>
    simp [hr, RepairReturn.toJ, jget, jlookup, pythonTruthy, isSuccess]

/-- Claim C7: two runs differing only in the verbose flag return the
same dict, print the same JSON to stdout, exit with the same code and
make the same engine calls; with verbose off nothing is printed to
stderr, so verbose narration goes only to the diagnostic stream. -/
theorem claim_C7 (M0 : Type) (eng : Engine M0) (fs : FS) (i o : String) :
    (repair_stl M0 eng fs i o true).fst =
      (repair_stl M0 eng fs i o false).fst ∧
    (pyMain M0 eng fs i o true).stdout =
      (pyMain M0 eng fs i o false).stdout ∧
    (pyMain M0 eng fs i o true).exitCode =
      (pyMain M0 eng fs i o false).exitCode ∧
    engineCallsOf (repair_stl M0 eng fs i o true).snd =
      engineCallsOf (repair_stl M0 eng fs i o false).snd ∧
    (pyMain M0 eng fs i o false).stderr = [] := by
  have hf := repair_fst_verbose M0 eng fs i o true false
  refine ⟨hf, ?_, ?_, ?_, ?_⟩
  · simp only [pyMain]
    rw [hf]
  · simp only [pyMain]
    rw [hf]
  · rw [repair_stl_snd, repair_stl_snd]
    exact calls_verbose_indep M0 eng fs i o true false
  · simp only [pyMain]
    rw [repair_stl_snd]
    exact stderr_quiet M0 eng fs i o

/-- Claim C8: every run that returns the success dict has called
save_current_mesh on outputPath with binary=True and
save_vertex_normal=False, i.e. the repaired mesh is written in binary
form with per-vertex normals excluded. -/
theorem claim_C8 (M0 : Type) (eng : Engine M0) (fs : FS)
    (i o : String) (v : Bool) (info : SuccessInfo)
    (h : (repair_stl M0 eng fs i o v).fst = .success info) :
    Event.engineCall (EngineCall.save_current_mesh o true false) ∈
      (repair_stl M0 eng fs i o v).snd := by
  have hc := (success_char M0 eng fs i o v info
    (repair_stl_success_body M0 eng fs i o v info h)).2.2.1
  apply mem_of_mem_engineCallsOf
  rw [repair_stl_snd, hc]
  simp [fullCallList]

/-- Witness for C8 on a concrete complete run. -/
theorem claim_C8_witness :
    (repair_stl Unit okEngine okFS "in.stl" "out.stl" false).fst =
      .success okInfo ∧
    Event.engineCall (EngineCall.save_current_mesh "out.stl" true false) ∈
      (repair_stl Unit okEngine okFS "in.stl" "out.stl" false).snd :=
  ⟨by decide,
   claim_C8 Unit okEngine okFS "in.stl" "out.stl" false okInfo (by decide)⟩

/-- Claim C9: every dict repair_stl returns binds the key "success" to
a boolean that is true exactly on the success dict; every failure dict
binds the key "error" to a string (and the success dict has no "error"
key); hence the CLI's exit-code decision is defined for every possible
return value. -/
theorem claim_C9 (M0 : Type) (eng : Engine M0) (fs : FS)
    (i o : String) (v : Bool) :
    jget (repair_stl M0 eng fs i o v).fst.toJ "success" =
      some (.jbool (isSuccess (repair_stl M0 eng fs i o v).fst)) ∧
    isStr (jget (repair_stl M0 eng fs i o v).fst.toJ "error") =
      !(isSuccess (repair_stl M0 eng fs i o v).fst) ∧
    ((pyMain M0 eng fs i o v).exitCode).isSome = true := by
  simp only [pyMain]
  cases hr : (repair_stl M0 eng fs i o v).fst <;>
    simp [hr, RepairReturn.toJ, jget, jlookup, isStr, isSuccess, pythonTruthy]

/-- Claim C10: the failure dict from a caught exception carries the
extra key "errorType" with the exception's class name, while the
missing-input failure dict has only the keys "success" and "error" and
no "errorType"; so not every failure dict carries a machine-readable
error category. -/
theorem claim_C10 (M0 : Type) (eng : Engine M0) (fs : FS)
    (i o : String) (v : Bool) :
    (fs.pathExists i = false →
      keysOf (repair_stl M0 eng fs i o v).fst.toJ = ["success", "error"] ∧
      jget (repair_stl M0 eng fs i o v).fst.toJ "errorType" = none) ∧
    (∀ e tr, repairBody M0 eng fs i o v = (.error e, tr) →
      keysOf (repair_stl M0 eng fs i o v).fst.toJ =
        ["success", "error", "errorType"] ∧
      jget (repair_stl M0 eng fs i o v).fst.toJ "errorType" =
        some (.jstr e.typeName)) := by
  constructor
  · intro h
    rw [run_missing_input M0 eng fs i o v h]
    simp [RepairReturn.toJ, keysOf, jget, jlookup]
  · intro e tr h
    rw [repair_stl_of_err M0 eng fs i o v e tr h]
    simp [RepairReturn.toJ, keysOf, jget, jlookup]

/-- Witness for C10: one concrete missing-input failure without
"errorType", one concrete caught failure with it. -/
theorem claim_C10_witness :
    keysOf (repair_stl Unit okEngine missFS "/nonexistent.stl" "out.stl"
        false).fst.toJ = ["success", "error"] ∧
    keysOf (repair_stl Unit failEngine okFS "in.stl" "out.stl"
        false).fst.toJ = ["success", "error", "errorType"] :=
  ⟨((claim_C10 Unit okEngine missFS "/nonexistent.stl" "out.stl" false).1
      rfl).1,
   ((claim_C10 Unit failEngine okFS "in.stl" "out.stl" false).2 oomExc
      failTrace rfl).1⟩
